import Mathlib

/- Verification development for the ScreenerOn trading-platform front end
   (src/src/App.jsx). The JavaScript code is shallowly embedded: JS numbers
   are modelled as rationals (ℚ), JS strings as Lean String (the Watchlist
   input additionally as List Char so that trimming can be reasoned about),
   JS objects as structures, `undefined`-able fields as Option, and the
   event handlers as pure state-transition functions. -/

namespace ScreenerOn

/-- Parameter bag of an indicator reference, matching the `valueParams`
objects in App.jsx (e.g. `{ period: 20 }`, `{}`); an absent key is `none`. -/
structure ValueParams where
  period : Option ℚ
  multiplier : Option ℚ
deriving DecidableEq, Repr

/-- One entry condition in the shape built by StrategyBuilder.addCondition
(App.jsx line 933): `{ id, property, operator, valueType, valueProperty,
valueParams, candle }`. Only the comparand (right-hand side) carries a
parameter bag; the subject `property` has no parameter slot in this shape. -/
structure Condition where
  id : ℚ
  property : String
  operator : String
  valueType : String
  valueProperty : String
  valueParams : ValueParams
  candle : ℚ
deriving DecidableEq, Repr

/-- Exit-policy state edited by the ExitStrategy component (App.jsx lines
1052-1069): `{ type, slValue, slUnit, tslValue, tslUnit }` where `type` is
the string "sl" or "tsl" chosen by the radio buttons. -/
structure ExitStrategy where
  type : String
  slValue : ℚ
  slUnit : String
  tslValue : ℚ
  tslUnit : String
deriving DecidableEq, Repr

/-- A strategy draft/record as produced by StrategyBuilder.handleSaveClick
(App.jsx line 935): `{ id: strategyToEdit?.id, name, strategyType,
entryConditions, exitStrategy }`. The `id` is `undefined` (`none`) for a
draft that has never been saved. -/
structure StrategyDefinition where
  id : Option ℚ
  name : String
  strategyType : String
  entryConditions : List Condition
  exitStrategy : ExitStrategy
deriving DecidableEq, Repr

/-- JavaScript truthiness of the optional numeric `id`, as tested by
`if (data.id)` in MyStrategiesPage.handleSave: `undefined` and `0` are
falsy, every other number is truthy. -/
def idTruthy : Option ℚ → Bool
  | none => false
  | some q => q != 0

/-- StrategyBuilder.handleSaveClick (App.jsx line 935): packages the builder
state into a draft object and hands it to the save callback; it performs no
validation of any kind. -/
def handleSaveClick (strategyToEditId : Option ℚ) (strategyName : String)
    (strategyType : String) (entryConditions : List Condition)
    (exitStrategy : ExitStrategy) : StrategyDefinition :=
  { id := strategyToEditId, name := strategyName, strategyType := strategyType,
    entryConditions := entryConditions, exitStrategy := exitStrategy }

/-- MyStrategiesPage.handleSave (App.jsx lines 904-908): if the draft carries
a (truthy) id, every saved strategy whose id equals it is replaced by the
draft; otherwise the draft is appended with `id: Date.now()`, modelled by the
explicit timestamp argument `now`. -/
def handleSave (savedStrategies : List StrategyDefinition)
    (data : StrategyDefinition) (now : ℚ) : List StrategyDefinition :=
  if idTruthy data.id then
    savedStrategies.map (fun s => if s.id = data.id then data else s)
  else
    savedStrategies ++ [{ data with id := some now }]

/-- MyStrategiesPage.handleDelete (App.jsx line 903):
`savedStrategies.filter(s => s.id !== id)`. -/
def handleDelete (savedStrategies : List StrategyDefinition) (id : ℚ) :
    List StrategyDefinition :=
  savedStrategies.filter (fun s => s.id ≠ some id)

/- Validation, serialization and deserialization. The repository contains no
implementation of these three operations (the save path above accepts every
draft as-is); they are modelled from spec section 4.1. -/

/-- Validation-error taxonomy from spec section 4.1: `validate` "fails if
name is empty, if conditions list is empty, if any indicator parameter is
missing/non-positive, or if the exit policy's magnitude is non-positive". -/
inductive ValidationError where
  | emptyName : ValidationError
  | noConditions : ValidationError
  | paramError : String → ValidationError
  | badExitMagnitude : ValidationError
deriving DecidableEq, Repr

/-- Indicators that require a `period` parameter: the moving averages and
RSI (App.jsx line 1101) together with Supertrend, whose period input appears
at line 1110. -/
def needsPeriod (i : String) : Bool :=
  i == "SMA" || i == "EMA" || i == "RSI" || i == "Supertrend"

/-- Supertrend additionally requires a `multiplier` parameter
(App.jsx line 1110). -/
def needsMultiplier (i : String) : Bool :=
  i == "Supertrend"

/-- A parameter value counts as supplied and positive exactly when it is
present and greater than zero. -/
def positiveParam : Option ℚ → Bool
  | none => false
  | some q => decide (0 < q)

/-- Modelled from the spec: parameter errors of one condition, per the
invariant that "every indicator reference that requires parameters ... must
carry all required parameters with positive values". In the draft shape a
subject has no parameter slot, so a parameterized subject is always missing
its parameters; a comparand is an indicator reference only when
`valueType == "indicator"`, and then its `valueParams` are checked. -/
def conditionParamErrors (c : Condition) : List ValidationError :=
  (if needsPeriod c.property then [ValidationError.paramError c.property] else [])
  ++ (if c.valueType == "indicator" && needsPeriod c.valueProperty
        && !(positiveParam c.valueParams.period)
      then [ValidationError.paramError c.valueProperty] else [])
  ++ (if c.valueType == "indicator" && needsMultiplier c.valueProperty
        && !(positiveParam c.valueParams.multiplier)
      then [ValidationError.paramError c.valueProperty] else [])

/-- Magnitude of the active branch of an exit policy: the trailing value when
the "tsl" radio is selected, the fixed stop-loss value otherwise (the
component's default selection is "sl", App.jsx line 931). -/
def exitMagnitude (e : ExitStrategy) : ℚ :=
  if e.type == "tsl" then e.tslValue else e.slValue

/-- Modelled from the spec: the full error list of a draft, per section 4.1
of the spec ("fails if name is empty, if conditions list is empty, if any
indicator parameter is missing/non-positive, or if the exit policy's
magnitude is non-positive"). -/
def validationErrors (s : StrategyDefinition) : List ValidationError :=
  (if s.name == "" then [ValidationError.emptyName] else [])
  ++ (if s.entryConditions.isEmpty then [ValidationError.noConditions] else [])
  ++ (s.entryConditions.map conditionParamErrors).flatten
  ++ (if exitMagnitude s.exitStrategy ≤ 0 then [ValidationError.badExitMagnitude] else [])

/-- Modelled from the spec: `validate(draft) -> Result<StrategyDefinition,
ValidationError[]>` (spec section 4.1); no validation is implemented anywhere
in the repository. -/
def validate (s : StrategyDefinition) :
    Except (List ValidationError) StrategyDefinition :=
  match validationErrors s with
  | [] => Except.ok s
  | e :: es => Except.error (e :: es)

/-- A JSON value: the target of serialization. -/
inductive Json where
  | null : Json
  | str : String → Json
  | num : ℚ → Json
  | arr : List Json → Json
  | obj : List (String × Json) → Json

/-- Field lookup on a JSON object; `none` on a missing field or a
non-object. -/
def Json.getField : Json → String → Option Json
  | .obj fields, k => fields.lookup k
  | _, _ => none

/-- Spec section 7: deserialization "should fail closed — reject the record
rather than partially load it" with a `MalformedInput` error. -/
inductive MalformedInput where
  | malformed : MalformedInput
deriving DecidableEq, Repr

/-- An optional number serializes to JSON null when absent. -/
def encOptNum : Option ℚ → Json
  | none => Json.null
  | some q => Json.num q

/-- Modelled from the spec: JSON encoding of a parameter bag. -/
def encValueParams (p : ValueParams) : Json :=
  Json.obj [("period", encOptNum p.period), ("multiplier", encOptNum p.multiplier)]

/-- Modelled from the spec: JSON encoding of one condition, field for field. -/
def encCondition (c : Condition) : Json :=
  Json.obj [("id", Json.num c.id), ("property", Json.str c.property),
    ("operator", Json.str c.operator), ("valueType", Json.str c.valueType),
    ("valueProperty", Json.str c.valueProperty),
    ("valueParams", encValueParams c.valueParams), ("candle", Json.num c.candle)]

/-- Modelled from the spec: JSON encoding of an exit policy, field for
field. -/
def encExitStrategy (e : ExitStrategy) : Json :=
  Json.obj [("type", Json.str e.type), ("slValue", Json.num e.slValue),
    ("slUnit", Json.str e.slUnit), ("tslValue", Json.num e.tslValue),
    ("tslUnit", Json.str e.tslUnit)]

/-- Modelled from the spec: `serialize(strategy) -> JSON` (spec section 4.1;
the repository implements no serialization). Field order is the declaration
order; the spec requires none in particular. -/
def serialize (s : StrategyDefinition) : Json :=
  Json.obj [("id", encOptNum s.id), ("name", Json.str s.name),
    ("strategyType", Json.str s.strategyType),
    ("entryConditions", Json.arr (s.entryConditions.map encCondition)),
    ("exitStrategy", encExitStrategy s.exitStrategy)]

/-- Decode a JSON string, rejecting every other kind. -/
def decStr : Json → Option String
  | .str s => some s
  | _ => none

/-- Decode a JSON number, rejecting every other kind. -/
def decNum : Json → Option ℚ
  | .num q => some q
  | _ => none

/-- Decode an optional number: null stands for an absent value. -/
def decOptNum : Json → Option (Option ℚ)
  | .null => some none
  | .num q => some (some q)
  | _ => none

/-- Modelled from the spec: decode a parameter bag. -/
def decValueParams (j : Json) : Option ValueParams := do
  let period ← (j.getField "period").bind decOptNum
  let multiplier ← (j.getField "multiplier").bind decOptNum
  some { period := period, multiplier := multiplier }

/-- Modelled from the spec: decode one condition, failing if a required
field is absent or of the wrong kind. -/
def decCondition (j : Json) : Option Condition := do
  let id ← (j.getField "id").bind decNum
  let property ← (j.getField "property").bind decStr
  let operator ← (j.getField "operator").bind decStr
  let valueType ← (j.getField "valueType").bind decStr
  let valueProperty ← (j.getField "valueProperty").bind decStr
  let valueParams ← (j.getField "valueParams").bind decValueParams
  let candle ← (j.getField "candle").bind decNum
  some { id := id, property := property, operator := operator,
         valueType := valueType, valueProperty := valueProperty,
         valueParams := valueParams, candle := candle }

/-- Modelled from the spec: decode an exit policy. -/
def decExitStrategy (j : Json) : Option ExitStrategy := do
  let type ← (j.getField "type").bind decStr
  let slValue ← (j.getField "slValue").bind decNum
  let slUnit ← (j.getField "slUnit").bind decStr
  let tslValue ← (j.getField "tslValue").bind decNum
  let tslUnit ← (j.getField "tslUnit").bind decStr
  some { type := type, slValue := slValue, slUnit := slUnit,
         tslValue := tslValue, tslUnit := tslUnit }

/-- Decode a list of JSON values as conditions, failing if any element
fails. -/
def decCondList : List Json → Option (List Condition)
  | [] => some []
  | j :: js => do
      let c ← decCondition j
      let cs ← decCondList js
      some (c :: cs)

/-- Decode a JSON array of conditions. -/
def decConditionList : Json → Option (List Condition)
  | .arr xs => decCondList xs
  | _ => none

/-- Modelled from the spec: the decoder underlying `deserialize`, returning
`none` when a required field is absent or of the wrong kind. -/
def decStrategy (j : Json) : Option StrategyDefinition := do
  let id ← (j.getField "id").bind decOptNum
  let name ← (j.getField "name").bind decStr
  let strategyType ← (j.getField "strategyType").bind decStr
  let entryConditions ← (j.getField "entryConditions").bind decConditionList
  let exitStrategy ← (j.getField "exitStrategy").bind decExitStrategy
  some { id := id, name := name, strategyType := strategyType,
         entryConditions := entryConditions, exitStrategy := exitStrategy }

/-- Modelled from the spec: `deserialize(json) -> StrategyDefinition`, which
"fails with MalformedInput if required fields are absent or of the wrong
kind" (spec section 4.1; the repository implements no deserialization). -/
def deserialize (j : Json) : Except MalformedInput StrategyDefinition :=
  match decStrategy j with
  | some s => Except.ok s
  | none => Except.error MalformedInput.malformed

/-- A scan/backtest condition in the shape used by the Screener and
Backtester pages (App.jsx lines 610-613, 692), which carry an extra `type`
field in front of the StrategyBuilder shape. -/
structure ScanCondition where
  id : ℚ
  type : String
  property : String
  operator : String
  valueType : String
  valueProperty : String
  valueParams : ValueParams
  candle : ℚ
deriving DecidableEq, Repr

/-- One row of the static screener result table (App.jsx lines 56-61). -/
structure ScreenerResult where
  symbol : String
  price : ℚ
  change : ℚ
  marketCap : String
  volume : String
deriving DecidableEq, Repr

/-- The static mock screener results (App.jsx lines 56-61). -/
def mockScreenerResults : List ScreenerResult :=
  [ { symbol := "WIPRO", price := 485.50, change := 1.2,
      marketCap := "2,52,000 Cr", volume := "1.2 Cr" },
    { symbol := "BAJFINANCE", price := 7210.80, change := -0.5,
      marketCap := "4,45,000 Cr", volume := "5. Lakh" },
    { symbol := "ITC", price := 430.15, change := 0.8,
      marketCap := "5,37,000 Cr", volume := "2.5 Cr" },
    { symbol := "ADANIENT", price := 3180.00, change := 2.5,
      marketCap := "3,62,000 Cr", volume := "80 Lakh" } ]

/-- State of the Screener component (App.jsx lines 609-613): the current
result list and the user-edited scan conditions. -/
structure ScreenerState where
  results : List ScreenerResult
  scanConditions : List ScanCondition
deriving DecidableEq, Repr

/-- Screener.handleRunScan (App.jsx lines 624-627): assigns the static
`mockScreenerResults` to the results state; the scan conditions are only
logged, never consulted. -/
def handleRunScan (st : ScreenerState) : ScreenerState :=
  { st with results := mockScreenerResults }

/-- One point of the mock equity curve (App.jsx lines 70-75). -/
structure ChartPoint where
  name : String
  value : ℚ
deriving DecidableEq, Repr

/-- One row of the mock trade log (App.jsx lines 76-79). -/
structure TradeLogEntry where
  trade_type : String
  stopLoss : String
  trailingsl : String
  entry_time : String
  exit_time : String
  risk : String
  exit_reason : String
  entry_price : ℚ
  exit_price : ℚ
  net_pnl_points : String
deriving DecidableEq, Repr

/-- The shape of a backtest result object (App.jsx lines 67-80). -/
structure BacktestResult where
  trades : ℚ
  netProfit : String
  profitFactor : ℚ
  maxDrawdown : String
  expectancy : String
  sharpeRatio : ℚ
  sortinoRatio : ℚ
  score : ℚ
  data : List ChartPoint
  tradeLog : List TradeLogEntry
deriving DecidableEq, Repr

/-- The static mock backtest result (App.jsx lines 67-80). -/
def mockBacktestResult : BacktestResult :=
  { trades := 42, netProfit := "₹24,500.00", profitFactor := 2.15,
    maxDrawdown := "-8.2%", expectancy := "₹583.33",
    sharpeRatio := 1.3, sortinoRatio := 1.9, score := 8.5,
    data :=
      [ { name := "Jan", value := 100000 }, { name := "Feb", value := 105000 },
        { name := "Mar", value := 102000 }, { name := "Apr", value := 110000 },
        { name := "May", value := 115000 }, { name := "Jun", value := 112000 },
        { name := "Jul", value := 118000 }, { name := "Aug", value := 121000 },
        { name := "Sep", value := 119000 }, { name := "Dec", value := 124500 } ],
    tradeLog :=
      [ { trade_type := "BUY", stopLoss := "2%", trailingsl := "1.5%",
          entry_time := "2023-01-05 09:30", exit_time := "2023-01-05 14:55",
          risk := "2000", exit_reason := "Target Hit",
          entry_price := 22150.50, exit_price := 22350.50,
          net_pnl_points := "+200.00" },
        { trade_type := "BUY", stopLoss := "2%", trailingsl := "1.5%",
          entry_time := "2023-01-08 10:15", exit_time := "2023-01-08 12:45",
          risk := "2000", exit_reason := "Stoploss Hit",
          entry_price := 22410.20, exit_price := 22302.20,
          net_pnl_points := "-108.00" } ] }

/-- State of the Backtester component (App.jsx lines 688-694): the result
(absent until a run), the side/asset selectors, and the configured entry
conditions and exit policy. -/
structure BacktesterState where
  result : Option BacktestResult
  tradeSide : String
  assetType : String
  entryConditions : List ScanCondition
  exitStrategy : ExitStrategy
deriving DecidableEq, Repr

/-- Backtester.handleRunBacktest (App.jsx line 710): assigns the static
`mockBacktestResult` regardless of the configured parameters. -/
def handleRunBacktest (st : BacktesterState) : BacktesterState :=
  { st with result := some mockBacktestResult }

/-- ExitStrategy radio handler for selecting the fixed stop-loss branch
(App.jsx line 1059): `onChange({...settings, type: 'sl'})`. -/
def selectSlBranch (settings : ExitStrategy) : ExitStrategy :=
  { settings with type := "sl" }

/-- ExitStrategy radio handler for selecting the trailing stop-loss branch
(App.jsx line 1063): `onChange({...settings, type: 'tsl'})`. -/
def selectTslBranch (settings : ExitStrategy) : ExitStrategy :=
  { settings with type := "tsl" }

/-- The fixed stop-loss branch is the active one. -/
def slActive (e : ExitStrategy) : Bool := e.type == "sl"

/-- The trailing stop-loss branch is the active one. -/
def tslActive (e : ExitStrategy) : Bool := e.type == "tsl"

/-- An active paper-trading session (App.jsx line 961). The id is the id of
the strategy the session was started from. -/
structure Session where
  id : Option ℚ
  name : String
  status : String
  pnl : ℚ
  trades : ℚ
  symbol : String
deriving DecidableEq, Repr

/-- PaperTradingPage.startTrading (App.jsx line 962): a no-op when a session
with the strategy's id already exists, otherwise appends a fresh session for
that strategy. -/
def startTrading (activeSessions : List Session) (strategy : StrategyDefinition) :
    List Session :=
  if (activeSessions.find? (fun s => s.id = strategy.id)).isSome then
    activeSessions
  else
    activeSessions ++ [{ id := strategy.id, name := strategy.name,
                         status := "active", pnl := 0, trades := 0,
                         symbol := "NIFTY 50" }]

/-- PaperTradingPage.stopTrading (App.jsx line 963):
`activeSessions.filter(s => s.id !== id)`. -/
def stopTrading (activeSessions : List Session) (id : ℚ) : List Session :=
  activeSessions.filter (fun s => s.id ≠ some id)

/-- JavaScript whitespace classification for `String.prototype.trim`,
modelled by Lean's whitespace test. -/
def jsIsSpace (c : Char) : Bool := c.isWhitespace

/-- JavaScript `trim` on a string viewed as its character list: drop leading
and trailing whitespace. -/
def jsTrim (s : List Char) : List Char :=
  ((s.dropWhile jsIsSpace).reverse.dropWhile jsIsSpace).reverse

/-- JavaScript `toUpperCase` on a string viewed as its character list. -/
def jsToUpperCase (s : List Char) : List Char := s.map Char.toUpper

/-- One watchlist row (App.jsx lines 37-41, 574-580). The price, change
and trend fields of a newly added row come from `Math.random()`; they are
modelled as inputs. -/
structure WatchlistStock where
  symbol : List Char
  price : String
  change : String
  changePercent : String
  trend : String
deriving DecidableEq, Repr

/-- Watchlist.handleAddItem (App.jsx lines 570-583): a no-op when the input
trims to the empty string, otherwise appends one row whose symbol is the
upper-cased input; the randomly generated display fields are passed in as
arguments. -/
def handleAddItem (watchlist : List WatchlistStock) (newItem : List Char)
    (price change changePercent trend : String) : List WatchlistStock :=
  if jsTrim newItem = [] then watchlist
  else watchlist ++ [{ symbol := jsToUpperCase newItem, price := price,
                       change := change, changePercent := changePercent,
                       trend := trend }]

/-- A condition contains an indicator reference that needs a period whose
period parameter is missing or non-positive: either the subject names a
parameterized indicator (the draft shape stores no subject parameters), or
the comparand is an indicator reference whose `period` entry is absent or
not positive. -/
def refsBadPeriod (c : Condition) : Bool :=
  needsPeriod c.property ||
    (c.valueType == "indicator" && needsPeriod c.valueProperty
      && !(positiveParam c.valueParams.period))

/-- Sample exit policy used in concrete instantiations: the builder default
(App.jsx line 931). -/
def sampleExit : ExitStrategy :=
  { type := "sl", slValue := 2, slUnit := "percent",
    tslValue := 1, tslUnit := "percent" }

/-- Sample entry condition used in concrete instantiations: the builder
default (App.jsx line 930). -/
def sampleCond : Condition :=
  { id := 1, property := "Close", operator := "greater_than",
    valueType := "indicator", valueProperty := "EMA",
    valueParams := { period := some 20, multiplier := none }, candle := 0 }

/-- Sample valid draft used in concrete instantiations. -/
def sampleDraft : StrategyDefinition :=
  { id := none, name := "EMA Crossover", strategyType := "buy",
    entryConditions := [sampleCond], exitStrategy := sampleExit }

/-- Sample draft with zero entry conditions. -/
def noCondDraft : StrategyDefinition :=
  { id := none, name := "Empty Draft", strategyType := "buy",
    entryConditions := [], exitStrategy := sampleExit }

/-- Sample condition referencing RSI with an empty parameter bag, as in the
spec section 8 example of a failing draft. -/
def rsiCond : Condition :=
  { id := 2, property := "Close", operator := "less_than",
    valueType := "indicator", valueProperty := "RSI",
    valueParams := { period := none, multiplier := none }, candle := 0 }

/-- Sample draft containing the RSI condition with missing period. -/
def rsiDraft : StrategyDefinition :=
  { id := none, name := "RSI Momentum", strategyType := "sell",
    entryConditions := [rsiCond], exitStrategy := sampleExit }

/-- Sample saved strategy with id 1. -/
def savedStrategyOne : StrategyDefinition :=
  { id := some 1, name := "EMA Crossover", strategyType := "buy",
    entryConditions := [sampleCond], exitStrategy := sampleExit }

/-- Sample saved strategy with id 2. -/
def savedStrategyTwo : StrategyDefinition :=
  { id := some 2, name := "RSI Momentum", strategyType := "sell",
    entryConditions := [rsiCond], exitStrategy := sampleExit }

/-- Sample session derived from `savedStrategyTwo` (App.jsx line 961 holds
an initial session with id 2). -/
def sampleSession : Session :=
  { id := some 2, name := "RSI Momentum", status := "active",
    pnl := 1250.75, trades := 3, symbol := "BANKNIFTY" }

/-- Decoding inverts encoding on optional numbers. -/
theorem decOptNum_encOptNum (o : Option ℚ) : decOptNum (encOptNum o) = some o := by
  cases o <;> rfl

/-- Decoding inverts encoding on parameter bags. -/
theorem decValueParams_enc (p : ValueParams) :
    decValueParams (encValueParams p) = some p := by
  cases p
  simp [decValueParams, encValueParams, Json.getField, List.lookup,
    decOptNum_encOptNum]

/-- Decoding inverts encoding on conditions. -/
theorem decCondition_enc (c : Condition) :
    decCondition (encCondition c) = some c := by
  cases c
  simp [decCondition, encCondition, Json.getField, List.lookup,
    decValueParams_enc, decStr, decNum]

/-- Decoding inverts encoding on exit policies. -/
theorem decExitStrategy_enc (e : ExitStrategy) :
    decExitStrategy (encExitStrategy e) = some e := by
  cases e
  simp [decExitStrategy, encExitStrategy, Json.getField, List.lookup,
    decStr, decNum]

/-- Decoding inverts encoding on condition lists. -/
theorem decConditionList_enc (l : List Condition) :
    decConditionList (Json.arr (l.map encCondition)) = some l := by
  induction l with
  | nil => rfl
  | cons c cs ih =>
      simp only [decConditionList] at ih ⊢
      simp [decCondList, decCondition_enc c, ih]

/-- Deserialization inverts serialization on every draft. -/
theorem deserialize_serialize (s : StrategyDefinition) :
    deserialize (serialize s) = Except.ok s := by
  cases s
  simp [deserialize, decStrategy, serialize, Json.getField, List.lookup,
    decOptNum_encOptNum, decStr, decConditionList_enc, decExitStrategy_enc]

/-- A draft with at least one validation error is rejected by `validate`. -/
theorem validate_error_of_mem (s : StrategyDefinition) (e : ValidationError)
    (h : e ∈ validationErrors s) :
    validate s = Except.error (validationErrors s) := by
  unfold validate
  cases hv : validationErrors s with
  | nil => rw [hv] at h; cases h
  | cons a as => simp

/-- A condition with a missing or non-positive period parameter contributes a
parameter error. -/
theorem paramError_of_refsBadPeriod (c : Condition) (h : refsBadPeriod c = true) :
    ∃ i, ValidationError.paramError i ∈ conditionParamErrors c := by
  unfold refsBadPeriod at h
  simp only [Bool.or_eq_true, Bool.and_eq_true] at h
  rcases h with h | ⟨⟨h1, h2⟩, h3⟩
  · exact ⟨c.property, by simp [conditionParamErrors, h]⟩
  · exact ⟨c.valueProperty, by simp [conditionParamErrors, h1, h2, h3]⟩

/-- Errors of a member condition are errors of the whole draft. -/
theorem mem_validationErrors_of_mem_cond (s : StrategyDefinition)
    (c : Condition) (e : ValidationError) (hc : c ∈ s.entryConditions)
    (he : e ∈ conditionParamErrors c) : e ∈ validationErrors s := by
  unfold validationErrors
  simp only [List.mem_append, List.mem_flatten, List.mem_map]
  exact Or.inl (Or.inr ⟨conditionParamErrors c, ⟨c, hc, rfl⟩, he⟩)

/-- Trimming yields the empty string exactly when every character is
whitespace. -/
theorem jsTrim_eq_nil_iff (s : List Char) :
    jsTrim s = [] ↔ ∀ c ∈ s, jsIsSpace c = true := by
  unfold jsTrim
  rw [List.reverse_eq_nil_iff, List.dropWhile_eq_nil_iff]
  have hsplit : s.takeWhile jsIsSpace ++ s.dropWhile jsIsSpace = s :=
    List.takeWhile_append_dropWhile jsIsSpace s
  constructor
  · intro h c hc
    rw [← hsplit] at hc
    rcases List.mem_append.1 hc with h1 | h2
    · exact List.mem_takeWhile_imp h1
    · exact h c (List.mem_reverse.2 h2)
  · intro h c hc
    refine h c ?_
    rw [← hsplit]
    exact List.mem_append.2 (Or.inr (List.mem_reverse.1 hc))

/-- C1: for every valid StrategyDefinition draft, deserializing the result of
serializing it yields the draft back unchanged — serialization is lossless
on valid drafts. (`serialize`/`deserialize` are modelled from the spec; the
repository implements neither.) -/
theorem serialize_then_deserialize_is_identity (s : StrategyDefinition)
    (hvalid : validate s = Except.ok s) :
    deserialize (serialize s) = Except.ok s :=
  deserialize_serialize s

/-- C1 witness: the sample draft is valid and round-trips unchanged. -/
theorem serialize_then_deserialize_is_identity_witness :
    validate sampleDraft = Except.ok sampleDraft ∧
      deserialize (serialize sampleDraft) = Except.ok sampleDraft :=
  ⟨by rfl, serialize_then_deserialize_is_identity sampleDraft (by rfl)⟩

/-- C2 counterexample: the save path does not reject a draft with zero entry
conditions — saving the concrete zero-conditions draft into the empty
collection stores it, so the collection gains the draft instead of a
ValidationError being raised. -/
theorem save_accepts_zero_conditions_draft :
    noCondDraft.entryConditions = [] ∧
      handleSave [] (handleSaveClick none "Empty Draft" "buy" [] sampleExit) 5
        = [{ noCondDraft with id := some 5 }] ∧
      { noCondDraft with id := some 5 }
        ∈ handleSave [] (handleSaveClick none "Empty Draft" "buy" [] sampleExit) 5 := by
  have h : handleSave [] (handleSaveClick none "Empty Draft" "buy" [] sampleExit) 5
      = [{ noCondDraft with id := some 5 }] := rfl
  refine ⟨rfl, h, ?_⟩
  rw [h]
  exact List.mem_singleton.2 rfl

/-- C2 (amended): a draft with zero entry conditions fails the spec-modelled
`validate` with a noConditions error; the code's save path, however, performs
no validation and accepts every such draft into the saved-strategies
collection (appending it when it carries no id). -/
theorem validate_rejects_zero_conditions_but_save_accepts
    (s : StrategyDefinition) (coll : List StrategyDefinition) (now : ℚ)
    (h : s.entryConditions = []) :
    (validate s = Except.error (validationErrors s) ∧
      ValidationError.noConditions ∈ validationErrors s) ∧
    (s.id = none → handleSave coll s now = coll ++ [{ s with id := some now }]) := by
  have hmem : ValidationError.noConditions ∈ validationErrors s := by
    simp [validationErrors, h]
  refine ⟨⟨validate_error_of_mem s _ hmem, hmem⟩, fun hid => ?_⟩
  simp [handleSave, hid, idTruthy]

/-- C2 witness: instantiation of the amended claim at the concrete
zero-conditions draft. -/
theorem validate_rejects_zero_conditions_but_save_accepts_witness :
    (validate noCondDraft = Except.error (validationErrors noCondDraft) ∧
      ValidationError.noConditions ∈ validationErrors noCondDraft) ∧
    handleSave [savedStrategyOne] noCondDraft 5
      = [savedStrategyOne] ++ [{ noCondDraft with id := some 5 }] := by
  have h := validate_rejects_zero_conditions_but_save_accepts noCondDraft
    [savedStrategyOne] 5 rfl
  exact ⟨h.1, h.2 rfl⟩

/-- C3: a draft containing a condition that references a parameterized
indicator (SMA, EMA, RSI, Supertrend) whose period parameter is missing or
non-positive fails the spec-modelled validation with a parameter error. -/
theorem validate_rejects_bad_period (s : StrategyDefinition) (c : Condition)
    (hc : c ∈ s.entryConditions) (hbad : refsBadPeriod c = true) :
    validate s = Except.error (validationErrors s) ∧
      ∃ i, ValidationError.paramError i ∈ validationErrors s := by
  obtain ⟨i, hi⟩ := paramError_of_refsBadPeriod c hbad
  have hmem := mem_validationErrors_of_mem_cond s c _ hc hi
  exact ⟨validate_error_of_mem s _ hmem, ⟨i, hmem⟩⟩

/-- C3 witness: the draft with an RSI comparand and empty parameter bag
fails validation with a parameter error. -/
theorem validate_rejects_bad_period_witness :
    validate rsiDraft = Except.error (validationErrors rsiDraft) ∧
      ∃ i, ValidationError.paramError i ∈ validationErrors rsiDraft :=
  validate_rejects_bad_period rsiDraft rsiCond (List.mem_singleton.2 rfl) rfl

/-- C4: a draft whose exit policy's active-branch magnitude is non-positive
fails the spec-modelled validation, whether the fixed stop-loss branch or
the trailing stop-loss branch is the active one. -/
theorem validate_rejects_nonpositive_exit_magnitude
    (s₁ s₂ : StrategyDefinition) :
    (s₁.exitStrategy.type = "sl" → s₁.exitStrategy.slValue ≤ 0 →
      validate s₁ = Except.error (validationErrors s₁) ∧
      ValidationError.badExitMagnitude ∈ validationErrors s₁) ∧
    (s₂.exitStrategy.type = "tsl" → s₂.exitStrategy.tslValue ≤ 0 →
      validate s₂ = Except.error (validationErrors s₂) ∧
      ValidationError.badExitMagnitude ∈ validationErrors s₂) := by
  constructor
  · intro ht hm
    have hmem : ValidationError.badExitMagnitude ∈ validationErrors s₁ := by
      simp [validationErrors, exitMagnitude, ht, hm]
    exact ⟨validate_error_of_mem s₁ _ hmem, hmem⟩
  · intro ht hm
    have hmem : ValidationError.badExitMagnitude ∈ validationErrors s₂ := by
      simp [validationErrors, exitMagnitude, ht, hm]
    exact ⟨validate_error_of_mem s₂ _ hmem, hmem⟩

/-- C4 witness: instantiation at a fixed-stop draft with magnitude 0 and a
trailing-stop draft with magnitude -1. -/
theorem validate_rejects_nonpositive_exit_magnitude_witness :
    ValidationError.badExitMagnitude ∈ validationErrors
      { sampleDraft with exitStrategy := { sampleExit with slValue := 0 } } ∧
    ValidationError.badExitMagnitude ∈ validationErrors
      { sampleDraft with exitStrategy :=
          { sampleExit with type := "tsl", tslValue := -1 } } := by
  constructor
  · exact ((validate_rejects_nonpositive_exit_magnitude
      { sampleDraft with exitStrategy := { sampleExit with slValue := 0 } }
      { sampleDraft with exitStrategy :=
          { sampleExit with type := "tsl", tslValue := -1 } }).1
      rfl (by show (0:ℚ) ≤ 0; norm_num)).2
  · exact ((validate_rejects_nonpositive_exit_magnitude
      { sampleDraft with exitStrategy := { sampleExit with slValue := 0 } }
      { sampleDraft with exitStrategy :=
          { sampleExit with type := "tsl", tslValue := -1 } }).2
      rfl (by show (-1:ℚ) ≤ 0; norm_num)).2

/-- C5: running the screener scan always assigns the fixed static
`mockScreenerResults`, and running a backtest always assigns the fixed
static `mockBacktestResult`; either output is independent of the configured
conditions and parameters. -/
theorem scan_and_backtest_results_are_static
    (sc sc' : ScreenerState) (bt bt' : BacktesterState) :
    (handleRunScan sc).results = mockScreenerResults ∧
    (handleRunBacktest bt).result = some mockBacktestResult ∧
    (handleRunScan sc).results = (handleRunScan sc').results ∧
    (handleRunBacktest bt).result = (handleRunBacktest bt').result :=
  ⟨rfl, rfl, rfl, rfl⟩

/-- C6: saving a draft whose (truthy) id matches an existing saved strategy
replaces every matching entry wholesale with the draft and keeps the
collection's length, and saving a draft with no id appends exactly one new
strategy whose id is the freshly taken timestamp. -/
theorem handleSave_replaces_or_appends (coll : List StrategyDefinition)
    (d₁ d₂ : StrategyDefinition) (now i : ℚ) :
    (d₁.id = some i → i ≠ 0 → (∃ s ∈ coll, s.id = some i) →
      handleSave coll d₁ now
          = coll.map (fun s => if s.id = d₁.id then d₁ else s) ∧
        (handleSave coll d₁ now).length = coll.length ∧
        d₁ ∈ handleSave coll d₁ now) ∧
    (d₂.id = none →
      handleSave coll d₂ now = coll ++ [{ d₂ with id := some now }] ∧
        (handleSave coll d₂ now).length = coll.length + 1) := by
  constructor
  · intro hid hnz hex
    have htruthy : idTruthy d₁.id = true := by
      rw [hid]; simpa [idTruthy] using hnz
    have heq : handleSave coll d₁ now
        = coll.map (fun s => if s.id = d₁.id then d₁ else s) := by
      simp [handleSave, htruthy]
    refine ⟨heq, by rw [heq, List.length_map], ?_⟩
    rw [heq]
    obtain ⟨s, hs, hsid⟩ := hex
    exact List.mem_map.2 ⟨s, hs, by rw [hsid, hid]; simp⟩
  · intro hid
    have : handleSave coll d₂ now = coll ++ [{ d₂ with id := some now }] := by
      simp [handleSave, hid, idTruthy]
    exact ⟨this, by rw [this]; simp⟩

/-- C6 witness: replacing the saved strategy with id 1 keeps the length and
stores the edited draft; saving an id-less draft appends one entry carrying
the timestamp id. -/
theorem handleSave_replaces_or_appends_witness :
    handleSave [savedStrategyOne, savedStrategyTwo]
        { savedStrategyOne with name := "Edited" } 99
      = [{ savedStrategyOne with name := "Edited" }, savedStrategyTwo] ∧
    handleSave [savedStrategyOne, savedStrategyTwo] sampleDraft 99
      = [savedStrategyOne, savedStrategyTwo, { sampleDraft with id := some 99 }] := by
  have h := handleSave_replaces_or_appends [savedStrategyOne, savedStrategyTwo]
    { savedStrategyOne with name := "Edited" } sampleDraft 99 1
  have h1 := (h.1 rfl (by norm_num)
    ⟨savedStrategyOne, List.mem_cons_self savedStrategyOne _, rfl⟩).1
  have h2 := (h.2 rfl).1
  constructor
  · rw [h1]
    rfl
  · rw [h2]
    rfl

/-- C7: deleting by id removes exactly the strategies carrying that id: no
survivor carries it, every non-matching strategy survives, and the survivors
keep their original relative order (the result is a sublist). -/
theorem handleDelete_removes_exactly_matching
    (coll : List StrategyDefinition) (i : ℚ) :
    (∀ s ∈ handleDelete coll i, s.id ≠ some i) ∧
    (∀ s ∈ coll, s.id ≠ some i → s ∈ handleDelete coll i) ∧
    (handleDelete coll i).Sublist coll := by
  refine ⟨?_, ?_, List.filter_sublist coll⟩
  · intro s hs
    have := List.of_mem_filter hs
    simpa using this
  · intro s hs hne
    exact List.mem_filter.2 ⟨hs, by simpa using hne⟩

/-- C7 witness: deleting id 1 from the two sample strategies keeps exactly
the strategy with id 2. -/
theorem handleDelete_removes_exactly_matching_witness :
    savedStrategyTwo ∈ handleDelete [savedStrategyOne, savedStrategyTwo] 1 ∧
    ∀ s ∈ handleDelete [savedStrategyOne, savedStrategyTwo] 1, s.id ≠ some 1 := by
  have h := handleDelete_removes_exactly_matching
    [savedStrategyOne, savedStrategyTwo] 1
  refine ⟨h.2.1 savedStrategyTwo
    (List.mem_cons_of_mem _ (List.mem_cons_self _ _)) ?_, h.1⟩
  show some (2:ℚ) ≠ some 1
  norm_num

/-- C8: switching the exit policy's active branch changes only the `type`
field — both branches' magnitudes and units are retained unchanged — and
after a switch exactly one branch is active. -/
theorem exit_branch_switch_preserves_fields (e : ExitStrategy) :
    ((selectSlBranch e).slValue = e.slValue ∧
     (selectSlBranch e).slUnit = e.slUnit ∧
     (selectSlBranch e).tslValue = e.tslValue ∧
     (selectSlBranch e).tslUnit = e.tslUnit ∧
     (selectSlBranch e).type = "sl" ∧
     slActive (selectSlBranch e) = true ∧
     tslActive (selectSlBranch e) = false) ∧
    ((selectTslBranch e).slValue = e.slValue ∧
     (selectTslBranch e).slUnit = e.slUnit ∧
     (selectTslBranch e).tslValue = e.tslValue ∧
     (selectTslBranch e).tslUnit = e.tslUnit ∧
     (selectTslBranch e).type = "tsl" ∧
     tslActive (selectTslBranch e) = true ∧
     slActive (selectTslBranch e) = false) := by
  exact ⟨⟨rfl, rfl, rfl, rfl, rfl, rfl, rfl⟩, ⟨rfl, rfl, rfl, rfl, rfl, rfl, rfl⟩⟩

/-- C9: starting a paper-trading session for a strategy whose id already has
an active session leaves the session list unchanged; starting one for a new
id appends exactly one session; stopping removes exactly the session with
the given id; and pairwise-distinct session ids are preserved by both
operations. -/
theorem paper_trading_distinct_ids (sessions : List Session)
    (strat₁ strat₂ : StrategyDefinition) (i : ℚ) :
    ((∃ s ∈ sessions, s.id = strat₁.id) →
      startTrading sessions strat₁ = sessions) ∧
    ((∀ s ∈ sessions, s.id ≠ strat₂.id) →
      startTrading sessions strat₂
        = sessions ++ [{ id := strat₂.id, name := strat₂.name,
                         status := "active", pnl := 0, trades := 0,
                         symbol := "NIFTY 50" }]) ∧
    (∀ s ∈ stopTrading sessions i, s.id ≠ some i) ∧
    (∀ s ∈ sessions, s.id ≠ some i → s ∈ stopTrading sessions i) ∧
    (stopTrading sessions i).Sublist sessions ∧
    ((sessions.map Session.id).Nodup →
      ((startTrading sessions strat₁).map Session.id).Nodup ∧
      ((stopTrading sessions i).map Session.id).Nodup) := by
  have hstop : ∀ s ∈ stopTrading sessions i, s.id ≠ some i := by
    intro s hs
    have := List.of_mem_filter hs
    simpa using this
  have hsub : (stopTrading sessions i).Sublist sessions :=
    List.filter_sublist sessions
  refine ⟨?_, ?_, hstop, ?_, hsub, ?_⟩
  · intro hex
    have : (sessions.find? (fun s => s.id = strat₁.id)).isSome := by
      rw [List.find?_isSome]
      obtain ⟨s, hs, hid⟩ := hex
      exact ⟨s, hs, by simpa using hid⟩
    simp [startTrading, this]
  · intro hall
    have : sessions.find? (fun s => s.id = strat₂.id) = none := by
      rw [List.find?_eq_none]
      intro s hs
      simpa using hall s hs
    simp [startTrading, this]
  · intro s hs hne
    exact List.mem_filter.2 ⟨hs, by simpa using hne⟩
  · intro hnd
    constructor
    · unfold startTrading
      by_cases hfind : (sessions.find? (fun s => s.id = strat₁.id)).isSome
      · simp [hfind, hnd]
      · have hnone : sessions.find? (fun s => s.id = strat₁.id) = none := by
          rwa [← Option.not_isSome_iff_eq_none]
        have hall : ∀ s ∈ sessions, s.id ≠ strat₁.id := by
          intro s hs
          have := List.find?_eq_none.1 hnone s hs
          simpa using this
        simp only [hfind, if_false, Bool.false_eq_true]
        rw [List.map_append]
        rw [List.nodup_append]
        refine ⟨hnd, by simp, ?_⟩
        intro x hx
        simp only [List.map_cons, List.map_nil, List.mem_cons,
          List.not_mem_nil, or_false]
        obtain ⟨s, hs, rfl⟩ := List.mem_map.1 hx
        exact fun hxe => hall s hs (by simpa using hxe)
    · exact ((hsub.map Session.id).nodup hnd)

/-- C9 witness: starting the already-running strategy 2 is a no-op, starting
strategy 1 appends one session, stopping id 2 empties the list, and the
distinct-ids invariant holds after starting strategy 1. -/
theorem paper_trading_distinct_ids_witness :
    startTrading [sampleSession] savedStrategyTwo = [sampleSession] ∧
    startTrading [sampleSession] savedStrategyOne
      = [sampleSession, { id := some 1, name := "EMA Crossover",
                          status := "active", pnl := 0, trades := 0,
                          symbol := "NIFTY 50" }] ∧
    (((startTrading [sampleSession] savedStrategyTwo).map Session.id).Nodup ∧
      ((stopTrading [sampleSession] 2).map Session.id).Nodup) := by
  have h := paper_trading_distinct_ids [sampleSession] savedStrategyTwo
    savedStrategyOne 2
  have hne : sampleSession.id ≠ savedStrategyOne.id := by
    show some (2:ℚ) ≠ some 1
    norm_num
  refine ⟨h.1 ⟨sampleSession, List.mem_singleton.2 rfl, rfl⟩, ?_, ?_⟩
  · have h2 := h.2.1 (by
      intro s hs
      rw [List.mem_singleton] at hs
      subst hs
      exact hne)
    rw [h2]
    rfl
  · refine h.2.2.2.2.2 ?_
    show ([some (2:ℚ)] : List (Option ℚ)).Nodup
    simp

/-- C10: submitting the watchlist add form with an input that is empty or
all whitespace leaves the watchlist unchanged; any other input appends
exactly one entry whose symbol is the upper-cased input (the randomly
generated display fields are modelled as inputs). -/
theorem watchlist_add_trim_and_uppercase (wl : List WatchlistStock)
    (item₁ item₂ : List Char) (price change changePercent trend : String) :
    ((∀ c ∈ item₁, jsIsSpace c = true) →
      handleAddItem wl item₁ price change changePercent trend = wl) ∧
    ((∃ c ∈ item₂, jsIsSpace c = false) →
      handleAddItem wl item₂ price change changePercent trend
        = wl ++ [{ symbol := jsToUpperCase item₂, price := price,
                   change := change, changePercent := changePercent,
                   trend := trend }]) := by
  constructor
  · intro h
    have : jsTrim item₁ = [] := (jsTrim_eq_nil_iff item₁).2 h
    simp [handleAddItem, this]
  · intro h
    have : jsTrim item₂ ≠ [] := by
      intro hnil
      obtain ⟨c, hc, hws⟩ := h
      have := (jsTrim_eq_nil_iff item₂).1 hnil c hc
      rw [this] at hws
      cases hws
    simp [handleAddItem, this]

/-- C10 witness: a whitespace-only input is a no-op; the input "tcs" appends
one entry with symbol "TCS". -/
theorem watchlist_add_trim_and_uppercase_witness :
    handleAddItem [] [' ', ' '] "10" "1" "1%" "up" = [] ∧
    handleAddItem [] ['t', 'c', 's'] "10" "1" "1%" "up"
      = [{ symbol := ['T', 'C', 'S'], price := "10", change := "1",
           changePercent := "1%", trend := "up" }] := by
  have h := watchlist_add_trim_and_uppercase [] [' ', ' '] ['t', 'c', 's']
    "10" "1" "1%" "up"
  refine ⟨h.1 (by decide), ?_⟩
  have h2 := h.2 ⟨'t', by decide, by decide⟩
  rw [h2]; decide

end ScreenerOn
